import Mathlib

/-!
Shallow embedding of the JSON-to-SQL conversion core of `api_to_sql.py`
(`json_to_sql`, lines 47-120), together with proofs of the specified
properties of schema inference, value encoding and script assembly.

Modelling conventions:
* A decoded JSON value is the inductive `Json` below.  The Python decoder
  (`json.loads`) produces `dict` / `list` / `str` / `int` / `float` /
  `bool` / `None`; a non-integer number (Python `float`) is carried
  together with its printed representation (`repr`) as a string, since no
  verified property depends on floating-point arithmetic, only on the tag
  and the emitted text.
* A Python `dict` decoded from JSON is a key-unique association list in
  insertion order; `py_get` is `dict.get` (first match).
* `dict.get(col, None)` collapses an absent key and a JSON `null` value to
  the same Python `None`; the embedding mirrors this with
  `(py_get kvs c).getD Json.null` since `None` is exactly the decoding of
  JSON `null`.
* Python raises `AttributeError` when `.keys()` (line 65) or `.get`
  (line 95) is invoked on a non-dict record; the embedding returns
  `Except.error PyErr.attributeError` there and is total everywhere else.
* `datetime.now().isoformat()` (line 52) is an input of the embedding, the
  `now : String` parameter.
-/

/-- A decoded JSON value as produced by Python's `json.loads`:
`None`, `bool`, `int`, `float`, `str`, `list`, `dict`. -/
inductive Json where
  | null : Json
  | bool (b : Bool) : Json
  | int (n : Int) : Json
  | real (r : String) : Json
  | str (s : String) : Json
  | arr (elems : List Json) : Json
  | obj (fields : List (String × Json)) : Json

/-- The only uncaught Python exception the conversion can raise:
`AttributeError`, from calling `.keys()` or `.get` on a non-dict. -/
inductive PyErr where
  | attributeError : PyErr
deriving DecidableEq

instance : DecidableEq (Except PyErr String) := fun a b =>
  match a, b with
  | Except.ok x, Except.ok y =>
    match decEq x y with
    | isTrue h => isTrue (h ▸ rfl)
    | isFalse h => isFalse (fun hh => h (Except.ok.inj hh))
  | Except.error x, Except.error y =>
    match decEq x y with
    | isTrue h => isTrue (h ▸ rfl)
    | isFalse h => isFalse (fun hh => h (Except.error.inj hh))
  | Except.ok _, Except.error _ => isFalse (fun hh => Except.noConfusion hh)
  | Except.error _, Except.ok _ => isFalse (fun hh => Except.noConfusion hh)

/-- The single-quote character, `chr 39`. -/
def squote : Char := Char.ofNat 39

/-- `value.replace(chr(39), 2*chr(39))` on the character list: the Python
single-character `str.replace` used at lines 101 and 106. -/
def escape_chars : List Char → List Char
  | [] => []
  | c :: cs => if c = squote then squote :: squote :: escape_chars cs else c :: escape_chars cs

/-- String-level single-quote doubling (lines 101 and 106). -/
def escape_sq (s : String) : String := String.mk (escape_chars s.data)

/-- `dict.get k` on a decoded JSON object: first binding of `k`. -/
def py_get (kvs : List (String × Json)) (k : String) : Option Json :=
  match kvs with
  | [] => none
  | kv :: rest => if kv.1 = k then some kv.2 else py_get rest k

/-- The double-quote character. -/
def dq : Char := Char.ofNat 34

/-- The backslash character. -/
def bsl : Char := Char.ofNat 92

/-- Lowercase hexadecimal digit, as used by `json.dumps` unicode escapes. -/
def hex_digit (n : Nat) : Char :=
  if n < 10 then Char.ofNat (48 + n) else Char.ofNat (87 + n)

/-- Four lowercase hex digits of a code unit below 2^16. -/
def u4 (n : Nat) : String :=
  String.mk [hex_digit ((n / 4096) % 16), hex_digit ((n / 256) % 16),
             hex_digit ((n / 16) % 16), hex_digit (n % 16)]

/-- Escaping of one character inside a `json.dumps` string literal with the
default `ensure_ascii=True`: printable ASCII passes through, the short
escapes cover quote, backslash and the five named controls, everything
else becomes `\uXXXX` (with a surrogate pair above the BMP). -/
def json_escape_char (c : Char) : String :=
  let n := c.toNat
  if c = dq then String.mk [bsl, dq]
  else if c = bsl then String.mk [bsl, bsl]
  else if n = 8 then "\\b"
  else if n = 9 then "\\t"
  else if n = 10 then "\\n"
  else if n = 12 then "\\f"
  else if n = 13 then "\\r"
  else if n < 32 then "\\u" ++ u4 n
  else if n < 127 then String.mk [c]
  else if n < 65536 then "\\u" ++ u4 n
  else "\\u" ++ u4 (55296 + (n - 65536) / 1024) ++ "\\u" ++ u4 (56320 + (n - 65536) % 1024)

/-- `json.dumps(value)` with default separators (line 101): compact-ish
serialization with `", "` between items and `": "` after keys. -/
def json_dumps : Json → String
  | Json.null => "null"
  | Json.bool b => if b then "true" else "false"
  | Json.int n => toString n
  | Json.real r => r
  | Json.str s => String.mk [dq] ++ String.join (s.data.map json_escape_char) ++ String.mk [dq]
  | Json.arr xs => "[" ++ String.intercalate ", " (xs.attach.map (fun x => json_dumps x.1)) ++ "]"
  | Json.obj kvs =>
      "\x7b" ++
        String.intercalate ", "
          (kvs.attach.map (fun kv =>
            String.mk [dq] ++ String.join (kv.1.1.data.map json_escape_char) ++ String.mk [dq] ++
              ": " ++ json_dumps kv.1.2)) ++
        "\x7d"
decreasing_by
  · have h := List.sizeOf_lt_of_mem x.2
    simp only [Json.arr.sizeOf_spec]
    omega
  · have h := List.sizeOf_lt_of_mem kv.2
    have h2 : sizeOf kv.1.2 < sizeOf kv.1 := by
      cases _kv1 : kv.1 with
      | mk a b => simp [Prod.mk.sizeOf_spec]
    simp only [Json.obj.sizeOf_spec]
    omega

/-- The per-value SQL encoding of lines 95-111, applied to
`obj.get(col, None)` (absent key and JSON null both arrive as `Json.null`):
`None` gives unquoted `NULL`; dict/list give the single-quoted, quote-doubled
`json.dumps` text; bool gives unquoted `1`/`0`; str gives the single-quoted,
quote-doubled text; numbers give `str(value)` unquoted.  The final `else`
branch of line 111 is unreachable for decoded JSON and has no counterpart. -/
def encode_value : Json → String
  | Json.null => "NULL"
  | Json.obj kvs => "'" ++ escape_sq (json_dumps (Json.obj kvs)) ++ "'"
  | Json.arr xs => "'" ++ escape_sq (json_dumps (Json.arr xs)) ++ "'"
  | Json.bool b => if b then "1" else "0"
  | Json.str s => "'" ++ escape_sq s ++ "'"
  | Json.int n => toString n
  | Json.real r => r

/-- Type inference for one column from the first record (lines 72-83):
`isinstance(v, (int, float))` with the inner `int` test first — note a
Python `bool` is an `int`, so booleans take the INTEGER branch; the
default for everything else (str, None, dict, list) is TEXT. -/
def sql_type_for : Json → String
  | Json.int _ => "INTEGER"
  | Json.real _ => "REAL"
  | Json.bool _ => "INTEGER"
  | _ => "TEXT"

/-- The data columns of lines 65 and 71-85: the keys of the first record in
insertion order, each typed from `first_object.get(col)`. -/
def infer_columns (first : List (String × Json)) : List (String × String) :=
  (first.map Prod.fst).map (fun c => (c, sql_type_for ((py_get first c).getD Json.null)))

/-- The full column list of the created table: the surrogate
`id INTEGER PRIMARY KEY AUTOINCREMENT` of line 69 followed by the inferred
data columns. -/
def schema_columns (first : List (String × Json)) : List (String × String) :=
  ("id", "INTEGER PRIMARY KEY AUTOINCREMENT") :: infer_columns first

/-- The CREATE TABLE statement of lines 68-87. -/
def create_table_stmt (t : String) (first : List (String × Json)) : String :=
  "CREATE TABLE IF NOT EXISTS " ++ t ++ " (\n    " ++
    String.intercalate ",\n    " ((schema_columns first).map (fun c => c.1 ++ " " ++ c.2)) ++
    "\n);\n"

/-- One INSERT statement (lines 92-114) for a record already known to be a
dict: the fixed column list joined with `", "`, and one encoded value per
column from `obj.get(col, None)`. -/
def insert_stmt (t : String) (cols : List String) (kvs : List (String × Json)) : String :=
  "INSERT INTO " ++ t ++ " (" ++ String.intercalate ", " cols ++ ") VALUES (" ++
    String.intercalate ", " (cols.map (fun c => encode_value ((py_get kvs c).getD Json.null))) ++
    ");\n"

/-- One iteration of the loop of line 92.  The call `obj.get(col, None)`
(line 95) sits inside `for col in columns:`, so a non-dict record raises
`AttributeError` only when the fixed column list is non-empty; with an
empty column list the inner loop body never runs and any record — dict or
not — emits the empty-column INSERT. -/
def insert_for (t : String) (cols : List String) : Json → Except PyErr String
  | Json.obj kvs => Except.ok (insert_stmt t cols kvs)
  | _ =>
    match cols with
    | [] => Except.ok (insert_stmt t [] [])
    | _ :: _ => Except.error PyErr.attributeError

/-- The INSERT loop of lines 92-114 over the whole record list, stopping at
the first record that raises. -/
def inserts_for (t : String) (cols : List String) : List Json → Except PyErr (List String)
  | [] => Except.ok []
  | r :: rs =>
    match insert_for t cols r with
    | Except.error e => Except.error e
    | Except.ok s =>
      match inserts_for t cols rs with
      | Except.error e => Except.error e
      | Except.ok ss => Except.ok (s :: ss)

/-- The header comment of line 52; `now` stands for
`datetime.now().isoformat()`. -/
def sql_header (t now : String) : String :=
  "-- SQL generated from JSON API\n-- Table: " ++ t ++ "\n-- Generated: " ++ now ++ "\n"

/-- The degenerate primitive output of line 118, with `v = str(json_data)`
interpolated with no escaping. -/
def simple_value_sql (t v : String) : String :=
  "-- Simple value detected\nINSERT INTO " ++ t ++ " (value) VALUES ('" ++ v ++ "');\n"

/-- Lines 58-114: the list branch of `json_to_sql`.  An empty list returns
the bare comment (line 61).  Otherwise `list(first_object.keys())`
(line 65) fixes the columns — raising `AttributeError` when the first
record is not a dict — and the script is the header, the CREATE TABLE, a
blank line, and the INSERT statements, joined (line 120). -/
def json_to_sql_records (now t : String) (records : List Json) : Except PyErr String :=
  match records with
  | [] => Except.ok "-- No data to insert\n"
  | first :: rest =>
    match first with
    | Json.obj firstKvs =>
      match inserts_for t (firstKvs.map Prod.fst) (Json.obj firstKvs :: rest) with
      | Except.error e => Except.error e
      | Except.ok ins =>
        Except.ok (sql_header t now ++ create_table_stmt t firstKvs ++ "\n" ++ String.join ins)
    | _ => Except.error PyErr.attributeError

/-- `json_to_sql(json_data, table_name)` of lines 47-120.  A dict is wrapped
into a one-element list (lines 54-56); a list is processed as-is; any other
value takes the primitive branch of lines 116-118 with `str(json_data)`
spelled out per Python type (`str(None) = "None"`, `str(True) = "True"`,
`str(False) = "False"`, decimal for `int`, `repr` text for `float`, the
string itself for `str`). -/
def json_to_sql (now : String) (json_data : Json) (table_name : String) : Except PyErr String :=
  match json_data with
  | Json.obj kvs => json_to_sql_records now table_name [Json.obj kvs]
  | Json.arr xs => json_to_sql_records now table_name xs
  | Json.null => Except.ok (simple_value_sql table_name "None")
  | Json.bool b => Except.ok (simple_value_sql table_name (if b then "True" else "False"))
  | Json.int n => Except.ok (simple_value_sql table_name (toString n))
  | Json.real r => Except.ok (simple_value_sql table_name r)
  | Json.str s => Except.ok (simple_value_sql table_name s)

/-- The record sequence derived from the input (lines 54-58), when the list
branch is taken at all: a dict becomes a one-element sequence, a list is
used as-is, a primitive derives none (it takes the branch of line 116). -/
def derived_records : Json → Option (List Json)
  | Json.obj kvs => some [Json.obj kvs]
  | Json.arr xs => some xs
  | _ => none

/-- The field list of a record known to be an object. -/
def obj_fields : Json → List (String × Json)
  | Json.obj kvs => kvs
  | _ => []

/-- Modelled from the spec: a SQL-string-literal parser, the reading
counterpart of the emitted single-quoted literals (spec §8: a reader that
un-doubles `''` to `'`).  It accepts exactly one complete literal:
a leading quote, a body in which `''` decodes to one quote and a lone
quote ends the literal, which must end the input. -/
def parse_body : List Char → Option (List Char)
  | [] => none
  | c :: cs =>
    if c = squote then
      match cs with
      | [] => some []
      | c2 :: cs2 =>
        if c2 = squote then (parse_body cs2).map (fun r => squote :: r) else none
    else (parse_body cs).map (fun r => c :: r)

/-- Modelled from the spec: parse one complete single-quoted SQL string
literal, yielding the decoded contents. -/
def parse_sql_literal (s : String) : Option String :=
  match s.data with
  | [] => none
  | c :: rest => if c = squote then (parse_body rest).map (fun cs => String.mk cs) else none

theorem parse_body_escape (cs : List Char) :
    parse_body (escape_chars cs ++ [squote]) = some cs := by
  induction cs with
  | nil => simp [escape_chars, parse_body]
  | cons c cs ih =>
    by_cases hc : c = squote
    · subst hc
      simp [escape_chars, parse_body, ih]
    · simp only [escape_chars, if_neg hc, List.cons_append]
      unfold parse_body
      simp [hc, ih]

theorem squote_str_data : ("'" : String).data = [squote] := rfl

theorem parse_escape_roundtrip (s : String) :
    parse_sql_literal ("'" ++ escape_sq s ++ "'") = some s := by
  have hd : ("'" ++ escape_sq s ++ "'").data = squote :: (escape_chars s.data ++ [squote]) := by
    rw [String.data_append, String.data_append, squote_str_data]
    simp [escape_sq]
  rw [parse_sql_literal, hd]
  simp [parse_body_escape]

/-- Claim C1: the spec says a non-empty record list whose first record is
not an object is handled by falling back to the degenerate single-column
`value` path and never crashes; in the code the primitive fallback of
line 116 is reachable only when the whole input is neither dict nor list,
so `list(first_object.keys())` at line 65 raises `AttributeError` on such
input.  Evaluating the embedding at the failing input `[1]`: -/
theorem c1_crash_eval :
    json_to_sql "T0" (Json.arr [Json.int 1]) "t" = Except.error PyErr.attributeError := rfl

/-- Counterexample to claim C3: a record that maps column `a` to JSON null
produces the unquoted literal `NULL` in its INSERT statement — the very
same output as a record from which the key is absent — not a single-quoted
stringified value. -/
theorem c3_counterexample :
    insert_for "t" ["a"] (Json.obj [("a", Json.null)]) =
      Except.ok "INSERT INTO t (a) VALUES (NULL);\n" ∧
    insert_for "t" ["a"] (Json.obj []) =
      Except.ok "INSERT INTO t (a) VALUES (NULL);\n" := ⟨rfl, rfl⟩

/-- Claim C3 (amended): `obj.get(col, None)` collapses a null value and an
absent key into the same `None`, so both emit the unquoted literal `NULL`;
the quoted stringified fallback branch is never taken for JSON null. -/
theorem c3_amended (kvs : List (String × Json)) (c : String)
    (h : py_get kvs c = some Json.null ∨ py_get kvs c = none) :
    encode_value ((py_get kvs c).getD Json.null) = "NULL" := by
  rcases h with h | h <;> rw [h] <;> rfl

theorem c3_amended_witness :
    encode_value ((py_get [("a", Json.null)] "a").getD Json.null) = "NULL" :=
  c3_amended [("a", Json.null)] "a" (Or.inl rfl)

/-- Counterexample to claim C5: on the bare-primitive path (line 118) the
string is interpolated with no quote doubling, so the emitted literal for
the primitive input `a'b` is `'a'b'`, which a SQL string-literal parser
does not read back as the original string. -/
theorem c5_counterexample :
    json_to_sql "T0" (Json.str "a'b") "t" =
      Except.ok "-- Simple value detected\nINSERT INTO t (value) VALUES ('a'b');\n" ∧
    parse_sql_literal "'a'b'" ≠ some "a'b" := ⟨rfl, by decide⟩

/-- Claim C5 (amended): for a string value appearing as a record field the
emitted literal is the single-quoted, quote-doubled encoding and parsing it
back yields the original string exactly; on the bare-primitive path the
stringified value is interpolated into the literal with no escaping. -/
theorem c5_amended (s now t : String) :
    parse_sql_literal (encode_value (Json.str s)) = some s ∧
    encode_value (Json.str s) = "'" ++ escape_sq s ++ "'" ∧
    json_to_sql now (Json.str s) t = Except.ok (simple_value_sql t s) :=
  ⟨parse_escape_roundtrip s, rfl, rfl⟩

theorem py_get_mem (kvs : List (String × Json)) (k : String) (v : Json)
    (h : py_get kvs k = some v) : k ∈ kvs.map Prod.fst := by
  induction kvs with
  | nil => simp [py_get] at h
  | cons kv rest ih =>
    rw [py_get] at h
    simp only [List.map_cons]
    by_cases hk : kv.1 = k
    · exact hk ▸ List.mem_cons_self _ _
    · rw [if_neg hk] at h
      exact List.mem_cons_of_mem _ (ih h)

theorem key_typed_mem (first : List (String × Json)) (k : String) (v : Json)
    (h : py_get first k = some v) :
    (k, sql_type_for v) ∈ infer_columns first := by
  have hm := py_get_mem first k v h
  have hmem : (k, sql_type_for ((py_get first k).getD Json.null)) ∈ infer_columns first := by
    unfold infer_columns
    exact List.mem_map.mpr ⟨k, hm, rfl⟩
  rwa [h, Option.getD_some] at hmem

/-- Claim C6: in the schema inferred from the first record, a key bound to
an integer-tagged number is typed INTEGER and a key bound to a
non-integer-tagged (float) number is typed REAL. -/
theorem c6 (first : List (String × Json)) (k : String) :
    (∀ n : Int, py_get first k = some (Json.int n) → (k, "INTEGER") ∈ infer_columns first) ∧
    (∀ r : String, py_get first k = some (Json.real r) → (k, "REAL") ∈ infer_columns first) :=
  ⟨fun n h => key_typed_mem first k (Json.int n) h,
   fun r h => key_typed_mem first k (Json.real r) h⟩

theorem c6_witness :
    ("a", "INTEGER") ∈ infer_columns [("a", Json.int 2), ("b", Json.real "1.5")] ∧
    ("b", "REAL") ∈ infer_columns [("a", Json.int 2), ("b", Json.real "1.5")] :=
  ⟨(c6 [("a", Json.int 2), ("b", Json.real "1.5")] "a").1 2 rfl,
   (c6 [("a", Json.int 2), ("b", Json.real "1.5")] "b").2 "1.5" rfl⟩

/-- Claim C7: a first-record key bound to a boolean is typed INTEGER (a
Python bool passes the `isinstance(v, (int, float))` test of line 75), and
a boolean record field is emitted as the unquoted literal `1` or `0`. -/
theorem c7 (first : List (String × Json)) (k : String) (b : Bool)
    (h : py_get first k = some (Json.bool b)) :
    (k, "INTEGER") ∈ infer_columns first ∧
    encode_value (Json.bool b) = (if b then "1" else "0") :=
  ⟨key_typed_mem first k (Json.bool b) h, rfl⟩

theorem c7_witness :
    ("f", "INTEGER") ∈ infer_columns [("f", Json.bool false)] ∧
    encode_value (Json.bool false) = (if false then "1" else "0") :=
  c7 [("f", Json.bool false)] "f" false rfl

/-- Claim C8: the schema derived from an object first record has exactly
`1 + |keys(first)|` columns; the first is the surrogate
`id INTEGER PRIMARY KEY AUTOINCREMENT`, independent of the input data, and
the remaining columns carry the first record's keys in insertion order.
The CREATE TABLE statement is assembled from exactly this column list. -/
theorem c8 (first : List (String × Json)) :
    (schema_columns first).length = 1 + first.length ∧
    (schema_columns first).head? = some ("id", "INTEGER PRIMARY KEY AUTOINCREMENT") ∧
    (schema_columns first).tail.map Prod.fst = first.map Prod.fst ∧
    ∀ t, create_table_stmt t first =
      "CREATE TABLE IF NOT EXISTS " ++ t ++ " (\n    " ++
        String.intercalate ",\n    " ((schema_columns first).map (fun c => c.1 ++ " " ++ c.2)) ++
        "\n);\n" := by
  refine ⟨?_, rfl, ?_, fun t => rfl⟩
  · simp [schema_columns, infer_columns]
    omega
  · simp [schema_columns, infer_columns, List.map_map, Function.comp]

theorem inserts_for_map (t : String) (cols : List String) (rs : List Json)
    (h : ∀ r ∈ rs, ∃ kvs, r = Json.obj kvs) :
    inserts_for t cols rs =
      Except.ok (rs.map (fun r => insert_stmt t cols (obj_fields r))) := by
  induction rs with
  | nil => rfl
  | cons r rs ih =>
    obtain ⟨kvs, rfl⟩ := h r (List.mem_cons_self _ _)
    simp [inserts_for, insert_for, obj_fields,
          ih (fun x hx => h x (List.mem_cons_of_mem _ hx))]

theorem insert_for_ok (t : String) (cols : List String) (r : Json) (s : String)
    (h : insert_for t cols r = Except.ok s) :
    ∃ okvs, s = insert_stmt t cols okvs := by
  cases r <;> cases cols <;> simp only [insert_for] at h <;>
    first
      | exact ⟨_, (Except.ok.inj h).symm⟩
      | cases h

theorem inserts_for_member (t : String) (cols : List String) (rs : List Json) (ins : List String)
    (h : inserts_for t cols rs = Except.ok ins) :
    ∀ s ∈ ins, ∃ okvs, s = insert_stmt t cols okvs := by
  induction rs generalizing ins with
  | nil =>
    simp only [inserts_for] at h
    injection h with h
    subst h
    intro s hs
    simp at hs
  | cons r rs ih =>
    rw [inserts_for] at h
    cases hr : insert_for t cols r with
    | error e => rw [hr] at h; cases h
    | ok s0 =>
      rw [hr] at h
      cases hrs : inserts_for t cols rs with
      | error e => rw [hrs] at h; cases h
      | ok tl =>
        rw [hrs] at h
        injection h with h
        subst h
        intro s hs
        rcases List.mem_cons.mp hs with h1 | h2
        · rw [h1]
          exact insert_for_ok t cols r s0 hr
        · exact ih tl hrs s h2

theorem py_get_filter (cols : List String) (kvs : List (String × Json)) (c : String)
    (hc : c ∈ cols) :
    py_get (kvs.filter (fun kv => cols.contains kv.1)) c = py_get kvs c := by
  induction kvs with
  | nil => rfl
  | cons kv rest ih =>
    rw [List.filter_cons]
    by_cases hm : cols.contains kv.1 = true
    · rw [if_pos hm]
      by_cases hk : kv.1 = c
      · simp [py_get, hk]
      · simp only [py_get, if_neg hk]
        exact ih
    · rw [if_neg hm]
      have hk : kv.1 ≠ c := by
        intro he
        exact hm (List.elem_iff.mpr (he ▸ hc))
      rw [ih]
      simp [py_get, if_neg hk]

/-- Claim C9: every INSERT statement is built from the fixed column list in
its fixed order; a column whose key the record lacks encodes as the
unquoted literal `NULL`; record keys outside the column list never
influence any statement (filtering them away leaves every INSERT
byte-identical); and every successfully emitted INSERT is an
`insert_stmt` over exactly the fixed columns. -/
theorem c9 (t : String) (cols : List String) (kvs : List (String × Json)) :
    (insert_stmt t cols kvs =
      "INSERT INTO " ++ t ++ " (" ++ String.intercalate ", " cols ++ ") VALUES (" ++
        String.intercalate ", "
          (cols.map (fun c => encode_value ((py_get kvs c).getD Json.null))) ++ ");\n") ∧
    (∀ c, py_get kvs c = none → encode_value ((py_get kvs c).getD Json.null) = "NULL") ∧
    (insert_stmt t cols kvs =
      insert_stmt t cols (kvs.filter (fun kv => cols.contains kv.1))) ∧
    (∀ rs ins, inserts_for t cols rs = Except.ok ins →
      ∀ s ∈ ins, ∃ okvs, s = insert_stmt t cols okvs) := by
  refine ⟨rfl, ?_, ?_, fun rs ins h => inserts_for_member t cols rs ins h⟩
  · intro c h
    rw [h]
    rfl
  · unfold insert_stmt
    have hpt : ∀ c ∈ cols,
        encode_value ((py_get kvs c).getD Json.null) =
          encode_value ((py_get (kvs.filter (fun kv => cols.contains kv.1)) c).getD Json.null) := by
      intro c hc
      rw [py_get_filter cols kvs c hc]
    rw [List.map_congr_left hpt]

theorem c9_witness :
    encode_value ((py_get [("b", Json.int 7)] "a").getD Json.null) = "NULL" ∧
    insert_stmt "t" ["a"] [("b", Json.int 7)] =
      insert_stmt "t" ["a"]
        ([("b", Json.int 7)].filter (fun kv => (["a"] : List String).contains kv.1)) ∧
    (∃ okvs, "INSERT INTO t (a) VALUES (NULL);\n" = insert_stmt "t" ["a"] okvs) :=
  ⟨(c9 "t" ["a"] [("b", Json.int 7)]).2.1 "a" rfl,
   (c9 "t" ["a"] [("b", Json.int 7)]).2.2.1,
   (c9 "t" ["a"] [("b", Json.int 7)]).2.2.2 [Json.obj [("b", Json.int 7)]]
     ["INSERT INTO t (a) VALUES (NULL);\n"] rfl _ (List.mem_singleton.mpr rfl)⟩

theorem records_header_dep (n1 n2 t : String) (rs : List Json) :
    json_to_sql_records n1 t rs = json_to_sql_records n2 t rs ∨
    ∃ s, json_to_sql_records n1 t rs = Except.ok (sql_header t n1 ++ s) ∧
         json_to_sql_records n2 t rs = Except.ok (sql_header t n2 ++ s) := by
  cases rs with
  | nil => exact Or.inl rfl
  | cons first rest =>
    cases first with
    | obj f =>
      cases hI : inserts_for t (f.map Prod.fst) (Json.obj f :: rest) with
      | error e =>
        left
        simp [json_to_sql_records, hI]
      | ok ins =>
        right
        refine ⟨create_table_stmt t f ++ "\n" ++ String.join ins, ?_, ?_⟩ <;>
          simp [json_to_sql_records, hI, String.append_assoc]
    | null => exact Or.inl rfl
    | bool b => exact Or.inl rfl
    | int n => exact Or.inl rfl
    | real r => exact Or.inl rfl
    | str s => exact Or.inl rfl
    | arr xs => exact Or.inl rfl

/-- Counterexample to claim C2: the same input converted under two
different clock readings (the `-- Generated:` header timestamp of line 52)
yields two different output strings. -/
theorem c2_counterexample :
    json_to_sql "2024-01-01T00:00:00" (Json.obj [("a", Json.int 1)]) "t" ≠
      json_to_sql "2024-01-02T00:00:00" (Json.obj [("a", Json.int 1)]) "t" := by decide

/-- Claim C2 (amended): the conversion is a pure function of the input
value, the table name and the clock reading; for a fixed clock reading
identical inputs give byte-identical output, and two invocations at
different clock readings agree everywhere except the header comment: both
outputs are the respective header followed by one shared remainder. -/
theorem c2_amended (n1 n2 t : String) (j : Json) :
    json_to_sql n1 j t = json_to_sql n2 j t ∨
    ∃ s, json_to_sql n1 j t = Except.ok (sql_header t n1 ++ s) ∧
         json_to_sql n2 j t = Except.ok (sql_header t n2 ++ s) := by
  cases j with
  | obj kvs => exact records_header_dep n1 n2 t [Json.obj kvs]
  | arr xs => exact records_header_dep n1 n2 t xs
  | null => exact Or.inl rfl
  | bool b => exact Or.inl rfl
  | int n => exact Or.inl rfl
  | real r => exact Or.inl rfl
  | str s => exact Or.inl rfl

theorem json_to_sql_derived (now t : String) (j : Json) (rs : List Json)
    (h : derived_records j = some rs) :
    json_to_sql now j t = json_to_sql_records now t rs := by
  cases j with
  | obj kvs =>
    simp only [derived_records, Option.some.injEq] at h
    rw [← h]
    rfl
  | arr xs =>
    simp only [derived_records, Option.some.injEq] at h
    rw [← h]
    rfl
  | null => cases h
  | bool b => cases h
  | int n => cases h
  | real r => cases h
  | str s => cases h

/-- Counterexample to claim C4: the degenerate primitive path (line 118)
emits a comment and one INSERT but no CREATE TABLE statement at all, so the
script for the primitive input `7` does not consist of one CREATE TABLE
followed by the INSERTs. -/
theorem c4_counterexample :
    json_to_sql "T0" (Json.int 7) "t" =
      Except.ok "-- Simple value detected\nINSERT INTO t (value) VALUES ('7');\n" ∧
    ¬ ("CREATE TABLE".data <:+:
        ("-- Simple value detected\nINSERT INTO t (value) VALUES ('7');\n").data) :=
  ⟨rfl, by decide⟩

/-- Claim C4 (amended): for an input whose derived record sequence is
non-empty and all of whose records are objects, the produced script is the
header comment, exactly one CREATE TABLE statement terminated by `;` and
newline, a blank line, and then exactly one INSERT statement per record,
each terminated by `;` and newline.  The degenerate primitive path instead
emits a comment plus a single INSERT and no CREATE TABLE statement. -/
theorem c4_amended (now t : String) (j : Json) (firstKvs : List (String × Json))
    (rest : List Json)
    (hd : derived_records j = some (Json.obj firstKvs :: rest))
    (hobj : ∀ r ∈ rest, ∃ kvs, r = Json.obj kvs) :
    ∃ ins : List String,
      json_to_sql now j t =
        Except.ok (sql_header t now ++ create_table_stmt t firstKvs ++ "\n" ++
          String.join ins) ∧
      ins.length = rest.length + 1 ∧
      (∃ m, create_table_stmt t firstKvs = "CREATE TABLE IF NOT EXISTS " ++ m ++ ";\n") ∧
      (∀ s ∈ ins, ∃ m, s = "INSERT INTO " ++ m ++ ");\n") := by
  have hall : ∀ r ∈ (Json.obj firstKvs :: rest), ∃ kvs, r = Json.obj kvs := by
    intro r hr
    rcases List.mem_cons.mp hr with h1 | h2
    · exact ⟨firstKvs, h1⟩
    · exact hobj r h2
  have hins := inserts_for_map t (firstKvs.map Prod.fst) (Json.obj firstKvs :: rest) hall
  refine ⟨(Json.obj firstKvs :: rest).map
      (fun r => insert_stmt t (firstKvs.map Prod.fst) (obj_fields r)), ?_, ?_, ?_, ?_⟩
  · rw [json_to_sql_derived now t j _ hd]
    simp [json_to_sql_records, hins]
  · simp
  · refine ⟨t ++ " (\n    " ++
      String.intercalate ",\n    "
        ((schema_columns firstKvs).map (fun c => c.1 ++ " " ++ c.2)) ++ "\n)", ?_⟩
    unfold create_table_stmt
    have hsep : ("\n);\n" : String) = "\n)" ++ ";\n" := rfl
    rw [hsep]
    simp [String.append_assoc]
  · intro s hs
    rcases List.mem_map.mp hs with ⟨r, _, rfl⟩
    refine ⟨t ++ " (" ++ String.intercalate ", " (firstKvs.map Prod.fst) ++ ") VALUES (" ++
      String.intercalate ", "
        ((firstKvs.map Prod.fst).map
          (fun c => encode_value ((py_get (obj_fields r) c).getD Json.null))), ?_⟩
    unfold insert_stmt
    simp [String.append_assoc]

theorem c4_amended_witness :
    ∃ ins : List String,
      json_to_sql "N" (Json.arr [Json.obj [("a", Json.int 1)]]) "t" =
        Except.ok (sql_header "t" "N" ++ create_table_stmt "t" [("a", Json.int 1)] ++ "\n" ++
          String.join ins) ∧
      ins.length = ([] : List Json).length + 1 ∧
      (∃ m, create_table_stmt "t" [("a", Json.int 1)] =
        "CREATE TABLE IF NOT EXISTS " ++ m ++ ";\n") ∧
      (∀ s ∈ ins, ∃ m, s = "INSERT INTO " ++ m ++ ");\n") :=
  c4_amended "N" "t" (Json.arr [Json.obj [("a", Json.int 1)]]) [("a", Json.int 1)] [] rfl
    (by simp)

theorem insert_stmt_nil_cols (t : String) (kvs : List (String × Json)) :
    insert_stmt t [] kvs = "INSERT INTO " ++ t ++ " () VALUES ();\n" := by
  unfold insert_stmt
  simp only [List.map_nil]
  have h1 : String.intercalate ", " ([] : List String) = "" := rfl
  rw [h1]
  simp only [String.append_empty, String.append_assoc]
  rfl

theorem inserts_for_nil_cols (t : String) (rs : List Json) :
    inserts_for t [] rs =
      Except.ok (rs.map (fun _ => "INSERT INTO " ++ t ++ " () VALUES ();\n")) := by
  induction rs with
  | nil => rfl
  | cons r rs ih =>
    have hr : insert_for t [] r = Except.ok ("INSERT INTO " ++ t ++ " () VALUES ();\n") := by
      cases r <;> simp only [insert_for] <;> rw [insert_stmt_nil_cols]
    simp [inserts_for, hr, ih]

/-- Claim C10: an empty-object input succeeds, creating a table whose only
column is the surrogate `id`, and (also for any non-empty array headed by
an empty object, whatever the remaining records are — the empty column
list means `obj.get` is never invoked) emits per record an INSERT with
empty column and value lists, `INSERT INTO <table> () VALUES ();`. -/
theorem c10 (now t : String) (rest : List Json) :
    json_to_sql now (Json.obj []) t =
      Except.ok (sql_header t now ++ create_table_stmt t [] ++ "\n" ++
        "INSERT INTO " ++ t ++ " () VALUES ();\n") ∧
    create_table_stmt t [] =
      "CREATE TABLE IF NOT EXISTS " ++ t ++
        " (\n    id INTEGER PRIMARY KEY AUTOINCREMENT\n);\n" ∧
    json_to_sql now (Json.arr (Json.obj [] :: rest)) t =
      Except.ok (sql_header t now ++ create_table_stmt t [] ++ "\n" ++
        String.join ((Json.obj [] :: rest).map
          (fun _ => "INSERT INTO " ++ t ++ " () VALUES ();\n"))) := by
  refine ⟨?_, ?_, ?_⟩
  · have hins := inserts_for_nil_cols t [Json.obj []]
    show json_to_sql_records now t [Json.obj []] = _
    simp only [json_to_sql_records, List.map_nil, hins, List.map_cons,
      String.join, List.foldl]
    simp only [String.empty_append, String.append_assoc]
  · simp only [create_table_stmt, schema_columns, infer_columns, String.append_assoc]
    rfl
  · have hins := inserts_for_nil_cols t (Json.obj [] :: rest)
    show json_to_sql_records now t (Json.obj [] :: rest) = _
    simp only [json_to_sql_records, List.map_nil, hins]

theorem c10_witness :
    json_to_sql "N" (Json.obj []) "t" =
      Except.ok (sql_header "t" "N" ++ create_table_stmt "t" [] ++ "\n" ++
        "INSERT INTO " ++ "t" ++ " () VALUES ();\n") ∧
    create_table_stmt "t" [] =
      "CREATE TABLE IF NOT EXISTS " ++ "t" ++
        " (\n    id INTEGER PRIMARY KEY AUTOINCREMENT\n);\n" ∧
    json_to_sql "N" (Json.arr (Json.obj [] :: [Json.int 5])) "t" =
      Except.ok (sql_header "t" "N" ++ create_table_stmt "t" [] ++ "\n" ++
        String.join ((Json.obj [] :: [Json.int 5]).map
          (fun _ => "INSERT INTO " ++ "t" ++ " () VALUES ();\n"))) :=
  c10 "N" "t" [Json.int 5]
